import Mathlib

/-!
Verification of the neurodsp filtering subsystem (`neurodsp/filt.py`).

The embedding models floating-point samples as rationals and NaN-marked
samples as `none` in a `List (Option ℚ)`.  Python exceptions are modelled by
an `Except PyErr` result type.  External collaborators (scipy firwin, butter,
filtfilt, and the freqz-based frequency response, plus the plotting sink)
are modelled as function parameters: only their documented array contracts
matter to the properties proved here, and the plotting call has no data
effect in the source (it is invoked after the result is computed and its
value is discarded).
-/

/-- A signal: ordered samples, `none` standing for a NaN-marked gap. -/
abbrev Sig := List (Option ℚ)

/-- Python exceptions raised by `filt.py` and by the numpy substrate. -/
inductive PyErr where
  | valueError (msg : String)
  | typeError (msg : String)
  | indexError
  | zeroDivisionError
  deriving DecidableEq

/-- The `fc` argument of the filter functions: a bare number or a tuple of
frequencies, mirroring the dynamic typing of the Python parameter. -/
inductive Fc where
  | single (x : ℚ)
  | tup (xs : List ℚ)
  deriving DecidableEq

/-- A designed filter kernel: FIR coefficient array, or the IIR
numerator/denominator pair. -/
inductive Kernel where
  | fir (k : List ℚ)
  | iir (b a : List ℚ)
  deriving DecidableEq

/-- The `Wn` argument passed to scipy butter: one normalized cutoff or a
pair, as built by `design_iir_filter`. -/
inductive ButterWin where
  | single (w : ℚ)
  | pair (lo hi : ℚ)
  deriving DecidableEq

/-- Python float division: raises ZeroDivisionError on a zero divisor. -/
def pydiv (x y : ℚ) : Except PyErr ℚ :=
  if y = 0 then .error .zeroDivisionError else .ok (x / y)

/-- `compute_nyquist(fs)`: returns `fs / 2.`. -/
def computeNyquist (fs : ℚ) : ℚ := fs / 2

/-- `check_filter_definition(pass_type, fc)`.  Mirrors the source control
flow: unknown pass types and malformed cutoffs raise ValueError, except that
indexing a tuple with fewer than the accessed entries raises IndexError
(`fc[0] >= fc[1]` is evaluated before the arity test).  Returns the
`(f_lo, f_hi)` pair, a missing bound encoded as `none`. -/
def checkFilterDefinition (passType : String) (fc : Fc) :
    Except PyErr (Option ℚ × Option ℚ) :=
  if passType ∉ ["bandpass", "bandstop", "lowpass", "highpass"] then
    .error (.valueError "Filter passtype not understood.")
  else if passType = "bandpass" ∨ passType = "bandstop" then
    match fc with
    | .tup (a :: b :: rest) =>
      if b ≤ a then
        .error (.valueError "Second cutoff frequency must be greater than first.")
      else if rest ≠ [] then
        .error (.valueError "Two cutoff frequencies required for bandpass and bandstop filters")
      else .ok (some a, some b)
    | .tup _ => .error .indexError
    | .single _ =>
      .error (.valueError "Two cutoff frequencies required for bandpass and bandstop filters")
  else if passType = "lowpass" then
    match fc with
    | .single x => .ok (none, some x)
    | .tup (_ :: x1 :: _) => .ok (none, some x1)
    | .tup _ => .error .indexError
  else
    match fc with
    | .single x => .ok (some x, none)
    | .tup (x0 :: _) => .ok (some x0, none)
    | .tup [] => .error .indexError

/-- `compute_pass_band(pass_type, fc, fs)`: difference of the cutoffs for the
band filters, Nyquist minus the cutoff for highpass, the cutoff itself for
lowpass. -/
def computePassBand (passType : String) (fc : Fc) (fs : ℚ) : Except PyErr ℚ :=
  match checkFilterDefinition passType fc with
  | .error e => .error e
  | .ok (fLo, fHi) =>
    if passType = "bandpass" ∨ passType = "bandstop" then
      .ok (fHi.getD 0 - fLo.getD 0)
    else if passType = "highpass" then
      .ok (computeNyquist fs - fLo.getD 0)
    else
      .ok (fHi.getD 0)

/-- `np.min` over a nonempty list; `none` for the empty list (where numpy
raises). -/
def listMin (l : List ℚ) : Option ℚ :=
  match l with
  | [] => none
  | x :: xs => some (xs.foldl min x)

/-- Elements at even positions of a list: the slice `l[0::2]`. -/
def everyOther : List ℕ → List ℕ
  | [] => []
  | [x] => [x]
  | x :: _ :: rest => x :: everyOther rest

/-- `compute_transition_band(f_db, db, low, high)`: indices where the
boolean mask `(db > low) & (db < high)` changes, paired up in slices
`inds[0::2]` and `inds[1::2]`; the maximum frequency span over the pairs.
`np.max` of an empty collection raises ValueError. -/
def computeTransitionBand (fDb db : List ℚ) (low high : ℚ) : Except PyErr ℚ :=
  let mask : ℕ → Bool := fun i => decide (low < db.getD i 0) && decide (db.getD i 0 < high)
  let inds := (List.range (db.length - 1)).filter fun i => mask i ≠ mask (i + 1)
  let spans := ((everyOther inds).zip (everyOther (inds.drop 1))).map
    fun p => fDb.getD p.2 0 - fDb.getD p.1 0
  match spans with
  | [] => .error (.valueError "zero-size array to reduction operation maximum which has no identity")
  | x :: xs => .ok (xs.foldl max x)

/-- `check_filter_properties(b_vals, a_vals, fs, pass_type, fc)` with the
default transition thresholds `(-20, -3)`.  The frequency response
`(f_db, db)` is computed by the external freqz collaborator and is received
here as data.  Returns the list of warnings emitted; advisory warnings never
raise, but the transition-band computation can. -/
def checkFilterProperties (fDb db : List ℚ) (fs : ℚ) (passType : String) (fc : Fc) :
    Except PyErr (List String) :=
  match checkFilterDefinition passType fc with
  | .error e => .error e
  | .ok _ =>
    match listMin db with
    | none => .error (.valueError "zero-size array to reduction operation minimum which has no identity")
    | some mn =>
      if (-20 : ℚ) ≤ mn then
        .ok ["The filter attenuation never goes below -20dB. Increase filter length."]
      else
        let w1 : List String :=
          if passType = "bandpass" ∧ ((-20 : ℚ) ≤ db.getD 0 0 ∨ (-20 : ℚ) ≤ db.getD (db.length - 1) 0) then
            ["The low or high frequency stopband never gets attenuated by more than 20 dB. Increase filter length."]
          else []
        match computePassBand passType fc fs with
        | .error e => .error e
        | .ok passBw =>
          match computeTransitionBand fDb db (-20) (-3) with
          | .error e => .error e
          | .ok transitionBw =>
            let w2 : List String :=
              if passBw < transitionBw then
                ["Transition bandwidth is greater than the desired pass/stop bandwidth."]
              else []
            .ok (w1 ++ w2)

/-- The raw FIR length of `_fir_checks` before odd-forcing:
`ceil(fs * n_seconds)` when a duration is given, otherwise
`ceil(fs * n_cycles / f_ref)` with `f_ref = f_hi` for lowpass and `f_lo`
for the other pass types.  A `none` reference bound is unreachable from the
design path (check_filter_definition always fills the used bound); the
Python float division raises on a zero divisor. -/
def firRawLen (passType : String) (fLo fHi : Option ℚ) (nCycles : ℚ)
    (nSeconds : Option ℚ) (fs : ℚ) : Except PyErr ℤ :=
  match nSeconds with
  | some t => .ok ⌈fs * t⌉
  | none =>
    if passType = "lowpass" then
      match pydiv (fs * nCycles) (fHi.getD 0) with
      | .error e => .error e
      | .ok q => .ok ⌈q⌉
    else
      match pydiv (fs * nCycles) (fLo.getD 0) with
      | .error e => .error e
      | .ok q => .ok ⌈q⌉

/-- Force a filter length to be odd: `if filt_len % 2 == 0: filt_len += 1`. -/
def forceOdd (n : ℤ) : ℤ := if n % 2 = 0 then n + 1 else n

/-- The message of the filter-too-long ValueError (the source formats the
two lengths into it; the formatted values are irrelevant here). -/
def filterTooLongMsg : String :=
  "The designed filter is longer than the signal. The filter needs to be shortened by decreasing the n_cycles or n_seconds parameter. However, this will decrease the frequency resolution of the filter."

/-- `_fir_checks(pass_type, f_lo, f_hi, n_cycles, n_seconds, fs, sig_length)`:
derives the filter length, forces it odd, and raises if it reaches the
signal length. -/
def firChecks (passType : String) (fLo fHi : Option ℚ) (nCycles : ℚ)
    (nSeconds : Option ℚ) (fs : ℚ) (sigLength : ℕ) : Except PyErr ℤ :=
  match firRawLen passType fLo fHi nCycles nSeconds fs with
  | .error e => .error e
  | .ok raw =>
    let filtLen := forceOdd raw
    if (sigLength : ℤ) ≤ filtLen then .error (.valueError filterTooLongMsg)
    else .ok filtLen

/-- `design_fir_filter(pass_type, fc, n_cycles, n_seconds, fs, sig_length)`.
The windowed-sinc construction itself is scipy firwin, received as the
`firwin` parameter `(numtaps, cutoffs, pass_zero, nyq)`; the branch on
pass_type mirrors the source (bandpass/highpass pass `pass_zero=False`).
The repository code raises nothing after `_fir_checks` succeeds. -/
def designFirFilter (firwin : ℕ → List ℚ → Bool → ℚ → List ℚ)
    (passType : String) (fc : Fc) (nCycles : ℚ) (nSeconds : Option ℚ)
    (fs : ℚ) (sigLength : ℕ) : Except PyErr (List ℚ) :=
  match checkFilterDefinition passType fc with
  | .error e => .error e
  | .ok (fLo, fHi) =>
    match firChecks passType fLo fHi nCycles nSeconds fs sigLength with
    | .error e => .error e
    | .ok filtLen =>
      let fNyq := computeNyquist fs
      if passType = "bandpass" then
        .ok (firwin filtLen.toNat [fLo.getD 0, fHi.getD 0] false fNyq)
      else if passType = "bandstop" then
        .ok (firwin filtLen.toNat [fLo.getD 0, fHi.getD 0] true fNyq)
      else if passType = "highpass" then
        .ok (firwin filtLen.toNat [fLo.getD 0] false fNyq)
      else
        .ok (firwin filtLen.toNat [fHi.getD 0] true fNyq)

/-- `design_iir_filter(pass_type, fc, butterworth_order, fs)`: warns when the
pass type is not bandstop, validates the definition, normalizes the cutoffs
by Nyquist and calls the external butter collaborator.  The emitted warnings
are returned alongside the coefficient pair. -/
def designIirFilter (butter : Option ℤ → ButterWin → String → List ℚ × List ℚ)
    (passType : String) (fc : Fc) (butterworthOrder : Option ℤ) (fs : ℚ) :
    Except PyErr (List String × List ℚ × List ℚ) :=
  let warns : List String :=
    if passType ≠ "bandstop" then
      ["IIR filters are not recommended other than for notch filters."]
    else []
  match checkFilterDefinition passType fc with
  | .error e => .error e
  | .ok (fLo, fHi) =>
    let fNyq := computeNyquist fs
    let win : ButterWin :=
      if passType = "bandpass" ∨ passType = "bandstop" then
        .pair (fLo.getD 0 / fNyq) (fHi.getD 0 / fNyq)
      else if passType = "highpass" then
        .single (fLo.getD 0 / fNyq)
      else
        .single (fHi.getD 0 / fNyq)
    .ok (warns, butter butterworthOrder win passType)

/-- `_iir_checks(n_seconds, butterworth_order, remove_edge_artifacts)`:
warns (non-fatally) about edge artifacts, then raises TypeError when a
duration is supplied or the Butterworth order is missing.  Returns the
warnings emitted. -/
def iirChecks (nSeconds : Option ℚ) (butterworthOrder : Option ℤ)
    (removeEdgeArtifacts : Bool) : Except PyErr (List String) :=
  let warns : List String :=
    if removeEdgeArtifacts then
      ["Edge artifacts are not removed when using an IIR filter."]
    else []
  if nSeconds.isSome then
    .error (.typeError "n_seconds should not be defined for an IIR filter.")
  else if butterworthOrder.isNone then
    .error (.typeError "butterworth_order must be defined when using an IIR filter.")
  else .ok warns

/-- `_remove_nans(sig)`: the NaN-free values in order, and the boolean NaN
mask over the original positions. -/
def removeNans (sig : Sig) : List ℚ × List Bool :=
  (sig.filterMap id, sig.map Option.isNone)

/-- `_restore_nans(sig, sig_nans)`: an all-NaN array of the mask length whose
non-masked positions receive the given values in order.  The numpy masked
assignment requires the value count to match the non-masked position count
(the scalar-broadcast case coincides with it on every reachable path);
`none` models the ValueError raised on a mismatch. -/
def restoreNans : List (Option ℚ) → List Bool → Option Sig
  | vals, [] => match vals with | [] => some [] | _ :: _ => none
  | vals, true :: ms => (restoreNans vals ms).map fun r => none :: r
  | vals, false :: ms =>
    match vals with
    | [] => none
    | v :: vs => (restoreNans vs ms).map fun r => v :: r

/-- `_drop_edge_artifacts(sig, filt_len)`: NaN out the first and last
`n_rmv = ceil(filt_len / 2)` samples.  Every call site passes the length of
a designed kernel, which is at least 1, so the slices are the plain first
and last `n_rmv` positions. -/
def dropEdgeArtifacts (sigFilt : List ℚ) (filtLen : ℕ) : Sig :=
  (List.range sigFilt.length).map fun i =>
    if i < (filtLen + 1) / 2 ∨ sigFilt.length ≤ i + (filtLen + 1) / 2 then none
    else some (sigFilt.getD i 0)

/-- Full discrete convolution of two sequences, `np.convolve(a, v)`:
output index `n` holds `sum a_k * v_(n-k)`. -/
def convFull (a v : List ℚ) : List ℚ :=
  (List.range (a.length + v.length - 1)).map fun n =>
    ((List.range (n + 1)).map fun k => a.getD k 0 * v.getD (n - k) 0).sum

/-- `np.convolve(a, v, 'same')`: the centered `max(M, N)` samples of the
full convolution; numpy raises on an empty operand. -/
def convSame (a v : List ℚ) : Except PyErr (List ℚ) :=
  if a.isEmpty ∨ v.isEmpty then
    .error (.valueError "convolve operands cannot be empty")
  else
    .ok (((convFull a v).drop ((min a.length v.length - 1) / 2)).take (max a.length v.length))

/-- `filter_signal_fir`: design, optional advisory validation over the
externally computed frequency response `freqResp kernel [1]`, NaN stripping,
same-mode convolution, optional edge-artifact removal, NaN restoration.
The optional frequency-response plot is delegated to the external plotting
sink after the result exists and has no data effect. -/
def filterSignalFir (freqResp : List ℚ → List ℚ → List ℚ × List ℚ)
    (firwin : ℕ → List ℚ → Bool → ℚ → List ℚ)
    (sig : Sig) (fs : ℚ) (passType : String) (fc : Fc) (nCycles : ℚ)
    (nSeconds : Option ℚ)
    (plotFreqResponse returnKernel computeTransBand removeEdgeArtifacts : Bool) :
    Except PyErr (Sig × Option (List ℚ)) :=
  match designFirFilter firwin passType fc nCycles nSeconds fs sig.length with
  | .error e => .error e
  | .ok kernel =>
    match (if computeTransBand then
             checkFilterProperties (freqResp kernel [1]).1 (freqResp kernel [1]).2 fs passType fc
           else .ok []) with
    | .error e => .error e
    | .ok _ =>
      match convSame kernel (removeNans sig).1 with
      | .error e => .error e
      | .ok sigFilt =>
        match restoreNans
            (if removeEdgeArtifacts then dropEdgeArtifacts sigFilt kernel.length
             else sigFilt.map some)
            (removeNans sig).2 with
        | none => .error (.valueError "could not broadcast input array")
        | some sigRestored =>
          if returnKernel then .ok (sigRestored, some kernel) else .ok (sigRestored, none)

/-- `filter_signal_iir`: IIR design, optional advisory validation, NaN
stripping, zero-phase filtering by the external filtfilt collaborator, NaN
restoration.  The optional plot again has no data effect. -/
def filterSignalIir (freqResp : List ℚ → List ℚ → List ℚ × List ℚ)
    (butter : Option ℤ → ButterWin → String → List ℚ × List ℚ)
    (filtfilt : List ℚ → List ℚ → List ℚ → Except PyErr (List ℚ))
    (sig : Sig) (fs : ℚ) (passType : String) (fc : Fc)
    (butterworthOrder : Option ℤ)
    (plotFreqResponse returnKernel computeTransBand : Bool) :
    Except PyErr (Sig × Option (List ℚ × List ℚ)) :=
  match designIirFilter butter passType fc butterworthOrder fs with
  | .error e => .error e
  | .ok (_warns, bVals, aVals) =>
    match (if computeTransBand then
             checkFilterProperties (freqResp bVals aVals).1 (freqResp bVals aVals).2 fs passType fc
           else .ok []) with
    | .error e => .error e
    | .ok _ =>
      match filtfilt bVals aVals (removeNans sig).1 with
      | .error e => .error e
      | .ok sigFilt =>
        match restoreNans (sigFilt.map some) (removeNans sig).2 with
        | none => .error (.valueError "could not broadcast input array")
        | some sigRestored =>
          if returnKernel then .ok (sigRestored, some (bVals, aVals))
          else .ok (sigRestored, none)

/-- `filter_signal`: dispatch on `iir`, running `_iir_checks` first on the
IIR path.  The kernel, when requested, is tagged with its family. -/
def filterSignal (freqResp : List ℚ → List ℚ → List ℚ × List ℚ)
    (firwin : ℕ → List ℚ → Bool → ℚ → List ℚ)
    (butter : Option ℤ → ButterWin → String → List ℚ × List ℚ)
    (filtfilt : List ℚ → List ℚ → List ℚ → Except PyErr (List ℚ))
    (sig : Sig) (fs : ℚ) (passType : String) (fc : Fc) (nCycles : ℚ)
    (nSeconds : Option ℚ) (iir : Bool) (butterworthOrder : Option ℤ)
    (plotFreqResponse returnKernel computeTransBand removeEdgeArtifacts : Bool) :
    Except PyErr (Sig × Option Kernel) :=
  if iir then
    match iirChecks nSeconds butterworthOrder removeEdgeArtifacts with
    | .error e => .error e
    | .ok _ =>
      match filterSignalIir freqResp butter filtfilt sig fs passType fc
          butterworthOrder plotFreqResponse returnKernel computeTransBand with
      | .error e => .error e
      | .ok (out, k) => .ok (out, k.map fun ba => Kernel.iir ba.1 ba.2)
  else
    match filterSignalFir freqResp firwin sig fs passType fc nCycles nSeconds
        plotFreqResponse returnKernel computeTransBand removeEdgeArtifacts with
    | .error e => .error e
    | .ok (out, k) => .ok (out, k.map Kernel.fir)

/-- Number of non-masked (False) entries among the first `i` mask positions. -/
def falseBefore (mask : List Bool) (i : ℕ) : ℕ :=
  ((mask.take i).filter fun b => !b).length

/-- Number of non-NaN samples among the first `i` positions of a signal. -/
def nnRank (sig : Sig) (i : ℕ) : ℕ :=
  ((sig.take i).filterMap id).length

/-! Helper lemmas about the NaN bookkeeping and the length derivation. -/

/-- The odd-forced length is odd. -/
theorem forceOdd_odd (n : ℤ) : Odd (forceOdd n) := by
  unfold forceOdd
  split
  · rename_i h; exact Int.odd_iff.mpr (by omega)
  · rename_i h; exact Int.odd_iff.mpr (by omega)

/-- Odd-forcing never shrinks a length. -/
theorem le_forceOdd (n : ℤ) : n ≤ forceOdd n := by
  unfold forceOdd; split <;> omega

/-- Counting non-masked positions equals counting non-NaN samples. -/
theorem filter_not_isNone_length : ∀ l : Sig,
    ((l.map Option.isNone).filter fun b => !b).length = (l.filterMap id).length
  | [] => rfl
  | none :: rest => by simpa using filter_not_isNone_length rest
  | some v :: rest => by simpa using filter_not_isNone_length rest

/-- On the NaN mask of a signal, `falseBefore` is the non-NaN rank. -/
theorem falseBefore_map_isNone (sig : Sig) (i : ℕ) :
    falseBefore (sig.map Option.isNone) i = nnRank sig i := by
  unfold falseBefore nnRank
  rw [← List.map_take]
  exact filter_not_isNone_length _

/-- At a non-masked position, the non-masked rank is below the total count. -/
theorem falseBefore_lt : ∀ (mask : List Bool) (i : ℕ), i < mask.length →
    mask.getD i true = false →
    falseBefore mask i < (mask.filter fun b => !b).length
  | b :: ms, 0, _, h0 => by
    have hb : b = false := by simpa using h0
    subst hb
    simp [falseBefore]
  | b :: ms, i + 1, hi, h0 => by
    have ih := falseBefore_lt ms i (by simpa using hi) (by simpa [List.getD] using h0)
    cases b
    · simpa [falseBefore, List.take_succ_cons] using Nat.succ_lt_succ ih
    · simpa [falseBefore, List.take_succ_cons] using ih

/-- The NaN mask reads `true` exactly at the NaN positions. -/
theorem mask_getD_true_iff (sig : Sig) (i : ℕ) (hi : i < sig.length) :
    (sig.map Option.isNone).getD i true = true ↔ sig[i]? = some none := by
  have h1 : i < (sig.map Option.isNone).length := by simpa using hi
  rw [List.getD_eq_getElem _ _ h1, List.getElem_map, List.getElem?_eq_getElem hi]
  simp

/-- Characterization of a successful `_restore_nans`: the output has the mask
length, the value count matches the non-masked position count, and each
position reads NaN on the mask and the next value in order off the mask. -/
theorem restoreNans_spec : ∀ (mask : List Bool) (vals : List (Option ℚ)) (out : Sig),
    restoreNans vals mask = some out →
    out.length = mask.length ∧
    vals.length = (mask.filter fun b => !b).length ∧
    ∀ i, i < mask.length →
      out[i]? = if mask.getD i true then some none else vals[falseBefore mask i]?
  | [], vals, out, h => by
    cases vals with
    | nil =>
      simp only [restoreNans, Option.some.injEq] at h
      subst h
      exact ⟨rfl, rfl, fun i hi => absurd hi (by simp)⟩
    | cons v vs => simp [restoreNans] at h
  | true :: ms, vals, out, h => by
    simp only [restoreNans, Option.map_eq_some'] at h
    obtain ⟨r, hr, hout⟩ := h
    obtain ⟨hlen, hvals, hpt⟩ := restoreNans_spec ms vals r hr
    subst hout
    refine ⟨by simp [hlen], by simpa using hvals, ?_⟩
    intro i hi
    cases i with
    | zero => simp
    | succ j =>
      have hj : j < ms.length := by simpa using hi
      simpa [falseBefore, List.take_succ_cons] using hpt j hj
  | false :: ms, vals, out, h => by
    cases vals with
    | nil => simp [restoreNans] at h
    | cons v vs =>
      simp only [restoreNans, Option.map_eq_some'] at h
      obtain ⟨r, hr, hout⟩ := h
      obtain ⟨hlen, hvals, hpt⟩ := restoreNans_spec ms vs r hr
      subst hout
      refine ⟨by simp [hlen], by simpa using hvals, ?_⟩
      intro i hi
      cases i with
      | zero => simp [falseBefore]
      | succ j =>
        have hj : j < ms.length := by simpa using hi
        have hfb : falseBefore (false :: ms) (j + 1) = falseBefore ms j + 1 := by
          simp [falseBefore, List.take_succ_cons]
        simpa [hfb] using hpt j hj

/-- Edge-artifact removal preserves length. -/
theorem dropEdgeArtifacts_length (l : List ℚ) (k : ℕ) :
    (dropEdgeArtifacts l k).length = l.length := by
  simp [dropEdgeArtifacts]

/-- Pointwise reading of edge-artifact removal. -/
theorem dropEdgeArtifacts_getElem (l : List ℚ) (k i : ℕ) (hi : i < l.length) :
    (dropEdgeArtifacts l k)[i]? =
      some (if i < (k + 1) / 2 ∨ l.length ≤ i + (k + 1) / 2 then none
            else some (l.getD i 0)) := by
  simp [dropEdgeArtifacts, List.getElem?_range, hi]

/-! Claim theorems. -/

/-- C10: stripping NaNs and restoring them is a lossless round trip: the
restored signal equals the original at every non-NaN position and is NaN
exactly at the original NaN positions, i.e. it is the original signal. -/
theorem remove_restore_roundtrip (sig : Sig) :
    restoreNans ((removeNans sig).1.map some) (removeNans sig).2 = some sig := by
  induction sig with
  | nil => rfl
  | cons x rest ih =>
    simp only [removeNans] at ih ⊢
    cases x with
    | none => simp [restoreNans, ih]
    | some v => simp [restoreNans, ih]

/-- C9: the computed pass bandwidth is the difference of the two cutoffs for
bandpass and bandstop, the distance from the cutoff up to the Nyquist
frequency fs/2 for highpass, and the cutoff itself for lowpass. -/
theorem pass_band_formula (pt : String) (fc : Fc) (fs a b : ℚ) :
    (pt = "bandpass" ∨ pt = "bandstop" →
      checkFilterDefinition pt fc = .ok (some a, some b) →
      computePassBand pt fc fs = .ok (b - a)) ∧
    (pt = "highpass" → checkFilterDefinition pt fc = .ok (some a, none) →
      computePassBand pt fc fs = .ok (fs / 2 - a)) ∧
    (pt = "lowpass" → checkFilterDefinition pt fc = .ok (none, some b) →
      computePassBand pt fc fs = .ok b) ∧
    computeNyquist fs = fs / 2 := by
  refine ⟨?_, ?_, ?_, rfl⟩
  · intro hpt hchk
    unfold computePassBand
    rw [hchk]
    simp [if_pos hpt]
  · intro hpt hchk
    subst hpt
    unfold computePassBand
    rw [hchk]
    simp [computeNyquist]
  · intro hpt hchk
    subst hpt
    unfold computePassBand
    rw [hchk]
    simp

/-- C9 witness: concrete bandpass, highpass and lowpass bandwidths. -/
theorem pass_band_formula_witness :
    computePassBand "bandpass" (.tup [8, 12]) 1000 = .ok 4 ∧
    computePassBand "highpass" (.single 20) 1000 = .ok 480 ∧
    computePassBand "lowpass" (.single 40) 1000 = .ok 40 :=
  ⟨by with_unfolding_all exact (pass_band_formula "bandpass" (.tup [8, 12]) 1000 8 12).1 (Or.inl rfl) rfl,
   by with_unfolding_all exact (pass_band_formula "highpass" (.single 20) 1000 20 0).2.1 rfl rfl,
   (pass_band_formula "lowpass" (.single 40) 1000 0 40).2.2.1 rfl rfl⟩

/-- C5 counterexample: a lowpass request with cutoff 600 at fs = 1000
(Nyquist 500) passes check_filter_definition and the whole repository-side
FIR design without any error: no InvalidFilterDefinition is raised before
kernel construction, the design proceeds straight into the external kernel
constructor. -/
theorem lowpass_nyquist_claim_false :
    computeNyquist 1000 ≤ 600 ∧
    designFirFilter (fun n _ _ _ => List.replicate n 1) "lowpass" (.single 600) 3 none 1000 10000
      = .ok (List.replicate 5 1) := by
  constructor
  · norm_num [computeNyquist]
  · with_unfolding_all rfl

/-- C5 amended: the repository performs no Nyquist check at all: for any
lowpass cutoff at or above Nyquist, check_filter_definition succeeds, and
the FIR design raises nothing of its own after the length check: it reduces
to a call of the external kernel constructor, which is where a cutoff at or
above Nyquist would be rejected, during kernel construction. -/
theorem lowpass_nyquist_unchecked (fs x : ℚ) (hcut : computeNyquist fs ≤ x) :
    checkFilterDefinition "lowpass" (.single x) = .ok (none, some x) ∧
    ∀ (firwin : ℕ → List ℚ → Bool → ℚ → List ℚ) (nCycles : ℚ)
      (nSeconds : Option ℚ) (sigLength : ℕ),
      designFirFilter firwin "lowpass" (.single x) nCycles nSeconds fs sigLength =
        match firChecks "lowpass" none (some x) nCycles nSeconds fs sigLength with
        | .error e => .error e
        | .ok filtLen => .ok (firwin filtLen.toNat [x] true (computeNyquist fs)) := by
  refine ⟨rfl, ?_⟩
  intro firwin nCycles nSeconds sigLength
  unfold designFirFilter
  rfl

/-- C5 witness: the amended statement at the concrete boundary input. -/
theorem lowpass_nyquist_unchecked_witness :
    checkFilterDefinition "lowpass" (.single 600) = .ok (none, some 600) :=
  (lowpass_nyquist_unchecked 1000 600 (by norm_num [computeNyquist])).1

/-- C6 counterexample: for a bandpass request with a one-entry tuple of
cutoffs (not exactly two ordered values), the validation raises IndexError
from the ordering comparison, not the InvalidFilterDefinition ValueError the
claim requires. -/
theorem cutoff_validation_claim_false :
    checkFilterDefinition "bandpass" (.tup [5]) = .error .indexError ∧
    ¬ ∃ msg, checkFilterDefinition "bandpass" (.tup [5]) = .error (.valueError msg) := by
  refine ⟨rfl, ?_⟩
  rintro ⟨msg, hmsg⟩
  rw [show checkFilterDefinition "bandpass" (.tup [5]) = .error .indexError from rfl] at hmsg
  simp at hmsg

/-- C6 amended: unknown pass types raise InvalidFilterDefinition; for
bandpass/bandstop, a single number, an out-of-order tuple of at least two
entries, or an in-order tuple of more than two entries raise
InvalidFilterDefinition, and an in-order two-entry tuple is accepted, but a
tuple with fewer than two entries raises IndexError instead (the ordering
comparison indexes the tuple before the arity test). -/
theorem cutoff_validation_amended :
    (∀ (pt : String) (fc : Fc), pt ∉ ["bandpass", "bandstop", "lowpass", "highpass"] →
      checkFilterDefinition pt fc = .error (.valueError "Filter passtype not understood.")) ∧
    (∀ pt : String, pt = "bandpass" ∨ pt = "bandstop" →
      (∀ x : ℚ, checkFilterDefinition pt (.single x)
        = .error (.valueError "Two cutoff frequencies required for bandpass and bandstop filters")) ∧
      (∀ (a b : ℚ) (rest : List ℚ), b ≤ a →
        checkFilterDefinition pt (.tup (a :: b :: rest))
          = .error (.valueError "Second cutoff frequency must be greater than first.")) ∧
      (∀ (a b : ℚ) (rest : List ℚ), a < b → rest ≠ [] →
        checkFilterDefinition pt (.tup (a :: b :: rest))
          = .error (.valueError "Two cutoff frequencies required for bandpass and bandstop filters")) ∧
      (∀ a b : ℚ, a < b → checkFilterDefinition pt (.tup [a, b]) = .ok (some a, some b)) ∧
      (∀ xs : List ℚ, xs.length < 2 → checkFilterDefinition pt (.tup xs) = .error .indexError)) := by
  constructor
  · intro pt fc h
    unfold checkFilterDefinition
    rw [if_pos h]
  · intro pt hpt
    have hmem : ¬ pt ∉ ["bandpass", "bandstop", "lowpass", "highpass"] := by
      rcases hpt with h | h <;> subst h <;> decide
    refine ⟨?_, ?_, ?_, ?_, ?_⟩
    · intro x
      unfold checkFilterDefinition
      rw [if_neg hmem, if_pos hpt]
    · intro a b rest hba
      unfold checkFilterDefinition
      rw [if_neg hmem, if_pos hpt]
      simp only [if_pos hba]
    · intro a b rest hab hrest
      unfold checkFilterDefinition
      rw [if_neg hmem, if_pos hpt]
      simp only [if_neg (not_le.mpr hab), if_pos hrest]
    · intro a b hab
      unfold checkFilterDefinition
      rw [if_neg hmem, if_pos hpt]
      simp [not_le.mpr hab]
    · intro xs hxs
      match xs, hxs with
      | [], _ =>
        unfold checkFilterDefinition
        rw [if_neg hmem, if_pos hpt]
      | [x], _ =>
        unfold checkFilterDefinition
        rw [if_neg hmem, if_pos hpt]

/-- C6 witness: the amended statement at concrete inputs. -/
theorem cutoff_validation_amended_witness :
    checkFilterDefinition "notch" (.single 5)
      = .error (.valueError "Filter passtype not understood.") ∧
    checkFilterDefinition "bandstop" (.tup [8, 12]) = .ok (some 8, some 12) ∧
    checkFilterDefinition "bandstop" (.tup []) = .error .indexError :=
  ⟨cutoff_validation_amended.1 "notch" (.single 5) (by decide),
   (cutoff_validation_amended.2 "bandstop" (Or.inr rfl)).2.2.2.1 8 12 (by norm_num),
   (cutoff_validation_amended.2 "bandstop" (Or.inr rfl)).2.2.2.2 [] (by decide)⟩

/-- C3: for a successful FIR design, the kernel length is the odd-forced
derived length, hence odd; and the derived raw length is ceil(fs times the
duration) when a duration is given, else ceil(fs times the cycle count over
the reference cutoff), the higher cutoff for lowpass and the lower cutoff
for the other pass types. -/
theorem fir_kernel_length_odd
    (firwin : ℕ → List ℚ → Bool → ℚ → List ℚ)
    (hfw : ∀ n c pz nyq, (firwin n c pz nyq).length = n)
    (passType : String) (fc : Fc) (fLo fHi : Option ℚ) (nCycles : ℚ)
    (nSeconds : Option ℚ) (fs : ℚ) (sigLength : ℕ) (kernel : List ℚ) (raw : ℤ)
    (hdef : checkFilterDefinition passType fc = .ok (fLo, fHi))
    (hraw : firRawLen passType fLo fHi nCycles nSeconds fs = .ok raw)
    (hpos : 1 ≤ raw)
    (hdes : designFirFilter firwin passType fc nCycles nSeconds fs sigLength = .ok kernel) :
    (kernel.length : ℤ) = forceOdd raw ∧ Odd kernel.length ∧
    (∀ t, nSeconds = some t → raw = ⌈fs * t⌉) ∧
    (nSeconds = none → passType = "lowpass" → ∀ b, fHi = some b → raw = ⌈fs * nCycles / b⌉) ∧
    (nSeconds = none → passType ≠ "lowpass" → ∀ a, fLo = some a → raw = ⌈fs * nCycles / a⌉) := by
  unfold designFirFilter at hdes
  rw [hdef] at hdes
  dsimp only at hdes
  have hfc : firChecks passType fLo fHi nCycles nSeconds fs sigLength
      = if (sigLength : ℤ) ≤ forceOdd raw then .error (.valueError filterTooLongMsg)
        else .ok (forceOdd raw) := by
    unfold firChecks
    rw [hraw]
  rw [hfc] at hdes
  by_cases hle : (sigLength : ℤ) ≤ forceOdd raw
  · rw [if_pos hle] at hdes
    exact absurd hdes (by simp)
  · rw [if_neg hle] at hdes
    have hklen : kernel.length = (forceOdd raw).toNat := by
      split at hdes
      · rename_i e heq
        exact absurd heq (by simp)
      · rename_i raw2 heq
        have hr2 : raw2 = forceOdd raw := by
          simpa using heq.symm
        subst hr2
        split at hdes <;> (try split at hdes) <;> (try split at hdes) <;>
          (simp only [Except.ok.injEq] at hdes; rw [← hdes]; exact hfw _ _ _ _)
    have hnn : 0 ≤ forceOdd raw := le_trans (le_trans Int.one_nonneg hpos) (le_forceOdd raw)
    have hcast : (kernel.length : ℤ) = forceOdd raw := by
      rw [hklen, Int.toNat_of_nonneg hnn]
    refine ⟨hcast, ?_, ?_, ?_, ?_⟩
    · have hodd := forceOdd_odd raw
      rw [← hcast] at hodd
      exact Int.odd_coe_nat kernel.length |>.mp hodd
    · intro t ht
      rw [ht] at hraw
      simpa [firRawLen] using hraw.symm
    · intro hns hlp b hb
      rw [hns, hlp, hb] at hraw
      unfold firRawLen pydiv at hraw
      by_cases hb0 : (b : ℚ) = 0
      · rw [if_pos rfl] at hraw
        simp [hb0] at hraw
      · simp only [if_pos rfl, Option.getD_some] at hraw
        rw [if_neg hb0] at hraw
        simpa using hraw.symm
    · intro hns hlp a ha
      rw [hns, ha] at hraw
      unfold firRawLen pydiv at hraw
      rw [if_neg hlp] at hraw
      by_cases ha0 : (a : ℚ) = 0
      · simp [ha0] at hraw
      · simp only [Option.getD_some] at hraw
        rw [if_neg ha0] at hraw
        simpa using hraw.symm

/-- C3 witness: a concrete lowpass design at fs 1000, cutoff 600, 3 cycles
over a 10-sample signal gives a kernel of the odd-forced length 5. -/
theorem fir_kernel_length_odd_witness :
    ((List.replicate 5 (1 : ℚ)).length : ℤ) = forceOdd 5 ∧ Odd (List.replicate 5 (1 : ℚ)).length := by
  have h := fir_kernel_length_odd (fun n _ _ _ => List.replicate n 1)
    (fun n _ _ _ => List.length_replicate n 1) "lowpass" (.single 600) none (some 600)
    3 none 1000 10 (List.replicate 5 1) 5 rfl (by with_unfolding_all rfl) (by decide)
    (by with_unfolding_all rfl)
  exact ⟨h.1, h.2.1⟩

/-- C4: `_fir_checks` raises the filter-too-long ValueError exactly when the
odd-forced derived length reaches the signal length; when it does, the FIR
design and the whole FIR filtering call return that error and nothing else
(no kernel, no filtered signal); otherwise the checks return the odd-forced
length and design proceeds. -/
theorem fir_too_long_iff
    (passType : String) (fc : Fc) (fLo fHi : Option ℚ) (nCycles : ℚ)
    (nSeconds : Option ℚ) (fs : ℚ) (sigLength : ℕ) (raw : ℤ)
    (hdef : checkFilterDefinition passType fc = .ok (fLo, fHi))
    (hraw : firRawLen passType fLo fHi nCycles nSeconds fs = .ok raw) :
    (firChecks passType fLo fHi nCycles nSeconds fs sigLength
        = .error (.valueError filterTooLongMsg) ↔ (sigLength : ℤ) ≤ forceOdd raw) ∧
    ((sigLength : ℤ) ≤ forceOdd raw →
      ∀ firwin : ℕ → List ℚ → Bool → ℚ → List ℚ,
        designFirFilter firwin passType fc nCycles nSeconds fs sigLength
          = .error (.valueError filterTooLongMsg)) ∧
    ((sigLength : ℤ) ≤ forceOdd raw →
      ∀ (freqResp : List ℚ → List ℚ → List ℚ × List ℚ)
        (firwin : ℕ → List ℚ → Bool → ℚ → List ℚ) (sig : Sig)
        (plot retK ctb edge : Bool), sig.length = sigLength →
        filterSignalFir freqResp firwin sig fs passType fc nCycles nSeconds plot retK ctb edge
          = .error (.valueError filterTooLongMsg)) ∧
    (¬ (sigLength : ℤ) ≤ forceOdd raw →
      firChecks passType fLo fHi nCycles nSeconds fs sigLength = .ok (forceOdd raw)) := by
  have hfc : firChecks passType fLo fHi nCycles nSeconds fs sigLength
      = if (sigLength : ℤ) ≤ forceOdd raw then .error (.valueError filterTooLongMsg)
        else .ok (forceOdd raw) := by
    unfold firChecks
    rw [hraw]
  have hdes : ∀ firwin, (sigLength : ℤ) ≤ forceOdd raw →
      designFirFilter firwin passType fc nCycles nSeconds fs sigLength
        = .error (.valueError filterTooLongMsg) := by
    intro firwin hle
    unfold designFirFilter
    rw [hdef]
    dsimp only
    rw [hfc, if_pos hle]
  refine ⟨?_, fun hle firwin => hdes firwin hle, ?_, ?_⟩
  · rw [hfc]
    by_cases hle : (sigLength : ℤ) ≤ forceOdd raw
    · simp [hle]
    · simp [hle]
  · intro hle freqResp firwin sig plot retK ctb edge hsig
    unfold filterSignalFir
    rw [hsig, hdes firwin hle]
  · intro hle
    rw [hfc, if_neg hle]

/-- C4 witness: at a 4-sample signal the derived length 5 triggers the
error; at a 10-sample signal the checks return the length 5. -/
theorem fir_too_long_iff_witness :
    (firChecks "lowpass" none (some 600) 3 none 1000 4
        = .error (.valueError filterTooLongMsg) ↔ (4 : ℤ) ≤ forceOdd 5) ∧
    firChecks "lowpass" none (some 600) 3 none 1000 10 = .ok (forceOdd 5) :=
  ⟨(fir_too_long_iff "lowpass" (.single 600) none (some 600) 3 none 1000 4 5
      rfl (by with_unfolding_all rfl)).1,
   (fir_too_long_iff "lowpass" (.single 600) none (some 600) 3 none 1000 10 5
      rfl (by with_unfolding_all rfl)).2.2.2 (by decide)⟩

/-- C7: on the IIR path of filter_signal, a supplied duration raises the
fatal TypeError for the incompatible option; a missing Butterworth order
raises the fatal TypeError for the missing order; requesting edge-artifact
removal only adds a non-fatal warning and the computation proceeds to the
IIR filtering regardless of the flag; and the IIR design emits the
notch-recommendation advisory exactly when the pass type is not bandstop. -/
theorem iir_option_errors (freqResp : List ℚ → List ℚ → List ℚ × List ℚ)
    (firwin : ℕ → List ℚ → Bool → ℚ → List ℚ)
    (butter : Option ℤ → ButterWin → String → List ℚ × List ℚ)
    (filtfilt : List ℚ → List ℚ → List ℚ → Except PyErr (List ℚ))
    (sig : Sig) (fs : ℚ) (pt : String) (fc : Fc) (nc : ℚ) :
    (∀ (t : ℚ) (bo : Option ℤ) (plot retK ctb edge : Bool),
      filterSignal freqResp firwin butter filtfilt sig fs pt fc nc (some t) true bo plot retK ctb edge
        = .error (.typeError "n_seconds should not be defined for an IIR filter.")) ∧
    (∀ plot retK ctb edge : Bool,
      filterSignal freqResp firwin butter filtfilt sig fs pt fc nc none true none plot retK ctb edge
        = .error (.typeError "butterworth_order must be defined when using an IIR filter.")) ∧
    (∀ (o : ℤ) (edge : Bool),
      iirChecks none (some o) edge
        = .ok (if edge then ["Edge artifacts are not removed when using an IIR filter."] else [])) ∧
    (∀ (o : ℤ) (plot retK ctb edge : Bool),
      filterSignal freqResp firwin butter filtfilt sig fs pt fc nc none true (some o) plot retK ctb edge
        = match filterSignalIir freqResp butter filtfilt sig fs pt fc (some o) plot retK ctb with
          | .error e => .error e
          | .ok (out, k) => .ok (out, k.map fun ba => Kernel.iir ba.1 ba.2)) ∧
    (∀ (o : Option ℤ) (fsx : ℚ) (w : List String) (b a : List ℚ),
      designIirFilter butter pt fc o fsx = .ok (w, b, a) →
        ("IIR filters are not recommended other than for notch filters." ∈ w ↔ pt ≠ "bandstop")) := by
  refine ⟨fun t bo plot retK ctb edge => rfl, fun plot retK ctb edge => rfl,
    fun o edge => rfl, fun o plot retK ctb edge => rfl, ?_⟩
  intro o fsx w b a h
  simp only [designIirFilter] at h
  split at h
  · exact absurd h (by simp)
  · simp only [Except.ok.injEq, Prod.mk.injEq] at h
    obtain ⟨hw, -⟩ := h
    rw [← hw]
    by_cases hpt : pt = "bandstop"
    · simp [hpt]
    · simp [hpt]

/-- C7 witness: concrete instances of the fatal duration error and of the
notch advisory for a non-bandstop pass type. -/
theorem iir_option_errors_witness :
    filterSignal (fun _ _ => ([], [])) (fun n _ _ _ => List.replicate n 1)
        (fun _ _ _ => ([1], [1])) (fun _ _ x => .ok x)
        [some 1, some 2] 1000 "bandpass" (.tup [8, 12]) 3 (some 1) true none
        false false false false
      = .error (.typeError "n_seconds should not be defined for an IIR filter.") ∧
    ("IIR filters are not recommended other than for notch filters."
        ∈ ["IIR filters are not recommended other than for notch filters."]
      ↔ ("bandpass" : String) ≠ "bandstop") :=
  ⟨(iir_option_errors (fun _ _ => ([], [])) (fun n _ _ _ => List.replicate n 1)
      (fun _ _ _ => ([1], [1])) (fun _ _ x => .ok x)
      [some 1, some 2] 1000 "bandpass" (.tup [8, 12]) 3).1 1 none false false false false,
   (iir_option_errors (fun _ _ => ([], [])) (fun n _ _ _ => List.replicate n 1)
      (fun _ _ _ => ([1], [1])) (fun _ _ x => .ok x)
      [some 1, some 2] 1000 "bandpass" (.tup [8, 12]) 3).2.2.2.2 (some 2) 1000
      ["IIR filters are not recommended other than for notch filters."] [1] [1] rfl⟩

/-- C8 counterexample: with a frequency response whose dB curve dips below
-20 dB but never enters the (-20, -3) band, enabling the advisory
validation makes filter_signal_fir raise (the transition-band computation
maximizes over an empty collection) while the identical call with the
validation disabled returns a filtered signal: the outputs are not
identical across the flag. -/
theorem advisory_blocks_claim_false :
    filterSignalFir (fun _ _ => ([0, 1, 2, 3, 4], [0, -1, -25, -30, -40]))
        (fun n _ _ _ => List.replicate n 1)
        [none, some 1, some 2, some 3, some 4, some 5, some 6, some 7, some 8, some 9]
        1000 "lowpass" (.single 600) 3 none false false true true
      = .error (.valueError "zero-size array to reduction operation maximum which has no identity") ∧
    filterSignalFir (fun _ _ => ([0, 1, 2, 3, 4], [0, -1, -25, -30, -40]))
        (fun n _ _ _ => List.replicate n 1)
        [none, some 1, some 2, some 3, some 4, some 5, some 6, some 7, some 8, some 9]
        1000 "lowpass" (.single 600) 3 none false false false true
      = .ok ([none, none, none, none, some 20, some 25, some 30, none, none, none], none) := by
  constructor
  · with_unfolding_all rfl
  · with_unfolding_all rfl

/-- C8 amended: the plotting flag never affects the returned data, and when
the advisory validation completes without raising, enabling it does not
change the returned signal or kernel either; the only way the flags can be
observed is the validation itself raising. -/
theorem advisory_plot_noninterference
    (freqResp : List ℚ → List ℚ → List ℚ × List ℚ)
    (firwin : ℕ → List ℚ → Bool → ℚ → List ℚ)
    (sig : Sig) (fs : ℚ) (pt : String) (fc : Fc) (nc : ℚ) (ns : Option ℚ)
    (plot plot' retK edge : Bool) (kernel : List ℚ) (w : List String)
    (hk : designFirFilter firwin pt fc nc ns fs sig.length = .ok kernel)
    (hck : checkFilterProperties (freqResp kernel [1]).1 (freqResp kernel [1]).2 fs pt fc = .ok w) :
    filterSignalFir freqResp firwin sig fs pt fc nc ns plot retK true edge
      = filterSignalFir freqResp firwin sig fs pt fc nc ns plot' retK false edge := by
  unfold filterSignalFir
  rw [hk]
  dsimp only
  rw [if_pos rfl, hck]
  rfl

/-- C8 witness: the amended noninterference at a concrete input whose
advisory validation completes (the response never dips below -20 dB). -/
theorem advisory_plot_noninterference_witness :
    filterSignalFir (fun _ _ => ([0], [0])) (fun n _ _ _ => List.replicate n 1)
        [none, some 1, some 2, some 3, some 4, some 5, some 6, some 7, some 8, some 9]
        1000 "lowpass" (.single 600) 3 none true true true true
      = filterSignalFir (fun _ _ => ([0], [0])) (fun n _ _ _ => List.replicate n 1)
        [none, some 1, some 2, some 3, some 4, some 5, some 6, some 7, some 8, some 9]
        1000 "lowpass" (.single 600) 3 none false true false true :=
  advisory_plot_noninterference (fun _ _ => ([0], [0])) (fun n _ _ _ => List.replicate n 1)
    [none, some 1, some 2, some 3, some 4, some 5, some 6, some 7, some 8, some 9]
    1000 "lowpass" (.single 600) 3 none true false true true (List.replicate 5 1)
    ["The filter attenuation never goes below -20dB. Increase filter length."]
    (by with_unfolding_all rfl) (by with_unfolding_all rfl)

/-- A successful FIR filtering returns a signal of the input length. -/
theorem filterSignalFir_length
    {freqResp : List ℚ → List ℚ → List ℚ × List ℚ}
    {firwin : ℕ → List ℚ → Bool → ℚ → List ℚ}
    {sig : Sig} {fs : ℚ} {pt : String} {fc : Fc} {nc : ℚ} {ns : Option ℚ}
    {plot retK ctb edge : Bool} {out : Sig} {k : Option (List ℚ)}
    (h : filterSignalFir freqResp firwin sig fs pt fc nc ns plot retK ctb edge = .ok (out, k)) :
    out.length = sig.length := by
  unfold filterSignalFir at h
  split at h
  · exact absurd h (by simp)
  split at h
  · exact absurd h (by simp)
  split at h
  · exact absurd h (by simp)
  split at h
  · exact absurd h (by simp)
  rename_i sigRestored hres
  have hout : sigRestored = out := by
    split at h <;> (simp only [Except.ok.injEq, Prod.mk.injEq] at h; exact h.1)
  have hspec := restoreNans_spec (removeNans sig).2 _ _ hres
  rw [← hout, hspec.1]
  simp [removeNans]

/-- A successful IIR filtering returns a signal of the input length. -/
theorem filterSignalIir_length
    {freqResp : List ℚ → List ℚ → List ℚ × List ℚ}
    {butter : Option ℤ → ButterWin → String → List ℚ × List ℚ}
    {filtfilt : List ℚ → List ℚ → List ℚ → Except PyErr (List ℚ)}
    {sig : Sig} {fs : ℚ} {pt : String} {fc : Fc} {bo : Option ℤ}
    {plot retK ctb : Bool} {out : Sig} {k : Option (List ℚ × List ℚ)}
    (h : filterSignalIir freqResp butter filtfilt sig fs pt fc bo plot retK ctb = .ok (out, k)) :
    out.length = sig.length := by
  unfold filterSignalIir at h
  split at h
  · exact absurd h (by simp)
  split at h
  · exact absurd h (by simp)
  split at h
  · exact absurd h (by simp)
  split at h
  · exact absurd h (by simp)
  rename_i sigRestored hres
  have hout : sigRestored = out := by
    split at h <;> (simp only [Except.ok.injEq, Prod.mk.injEq] at h; exact h.1)
  have hspec := restoreNans_spec (removeNans sig).2 _ _ hres
  rw [← hout, hspec.1]
  simp [removeNans]

/-- C2: whenever filter_signal returns, the filtered signal has exactly the
length of the input signal, on both the FIR and the IIR path. -/
theorem filter_signal_length_invariant
    {freqResp : List ℚ → List ℚ → List ℚ × List ℚ}
    {firwin : ℕ → List ℚ → Bool → ℚ → List ℚ}
    {butter : Option ℤ → ButterWin → String → List ℚ × List ℚ}
    {filtfilt : List ℚ → List ℚ → List ℚ → Except PyErr (List ℚ)}
    {sig : Sig} {fs : ℚ} {pt : String} {fc : Fc} {nc : ℚ} {ns : Option ℚ}
    {iir : Bool} {bo : Option ℤ} {plot retK ctb edge : Bool}
    {out : Sig} {k : Option Kernel}
    (h : filterSignal freqResp firwin butter filtfilt sig fs pt fc nc ns iir bo
          plot retK ctb edge = .ok (out, k)) :
    out.length = sig.length := by
  unfold filterSignal at h
  by_cases hiir : iir = true
  · rw [if_pos hiir] at h
    split at h
    · exact absurd h (by simp)
    split at h
    · exact absurd h (by simp)
    rename_i out0 k0 heq
    simp only [Except.ok.injEq, Prod.mk.injEq] at h
    rw [← h.1]
    exact filterSignalIir_length heq
  · rw [if_neg hiir] at h
    split at h
    · exact absurd h (by simp)
    rename_i out0 k0 heq
    simp only [Except.ok.injEq, Prod.mk.injEq] at h
    rw [← h.1]
    exact filterSignalFir_length heq

/-- C2 witness: a concrete FIR run through the filter_signal dispatcher
returns a 10-sample output for a 10-sample input. -/
theorem filter_signal_length_invariant_witness :
    ([none, none, none, none, some 20, some 25, some 30, none, none, none] : Sig).length
      = ([none, some 1, some 2, some 3, some 4, some 5, some 6, some 7, some 8, some 9] : Sig).length :=
  filter_signal_length_invariant
    (show filterSignal (fun _ _ => ([], [])) (fun n _ _ _ => List.replicate n 1)
        (fun _ _ _ => ([1], [1])) (fun _ _ x => .ok x)
        [none, some 1, some 2, some 3, some 4, some 5, some 6, some 7, some 8, some 9]
        1000 "lowpass" (.single 600) 3 none false none false true false true
      = .ok ([none, none, none, none, some 20, some 25, some 30, none, none, none],
             some (.fir [1, 1, 1, 1, 1])) from by with_unfolding_all rfl)

/-- C1 counterexample: a 10-sample signal with NaN only at position 0,
lowpass-FIR filtered with edge removal on (kernel length 5, so
ceil(5/2) = 3 edge samples).  The output is NaN at position 3, although
position 3 is neither an input NaN position nor among the first or last 3
sample positions of the signal: the edge NaNs land on the first and last 3
positions of the NaN-stripped signal, not of the signal itself. -/
theorem fir_nan_positions_claim_false :
    filterSignalFir (fun _ _ => ([], [])) (fun n _ _ _ => List.replicate n 1)
        [none, some 1, some 2, some 3, some 4, some 5, some 6, some 7, some 8, some 9]
        1000 "lowpass" (.single 600) 3 none false true false true
      = .ok ([none, none, none, none, some 20, some 25, some 30, none, none, none],
             some [1, 1, 1, 1, 1]) ∧
    ([none, none, none, none, some 20, some 25, some 30, none, none, none] : Sig)[3]?
      = some none ∧
    ([none, some 1, some 2, some 3, some 4, some 5, some 6, some 7, some 8, some 9] : Sig)[3]?
      = some (some 3) ∧
    ¬ (3 < (([1, 1, 1, 1, 1] : List ℚ).length + 1) / 2 ∨
        ([none, some 1, some 2, some 3, some 4, some 5, some 6, some 7, some 8, some 9] : Sig).length
          ≤ 3 + (([1, 1, 1, 1, 1] : List ℚ).length + 1) / 2) := by
  refine ⟨by with_unfolding_all rfl, rfl, rfl, ?_⟩
  decide

/-- C1 amended: whenever the FIR path returns, the output is NaN exactly at
the input NaN positions plus, when edge removal is enabled, at the positions
of the first and last ceil(kernel_length/2) non-NaN samples of the signal
(the edge slice is cut out of the NaN-stripped signal before the NaNs are
restored); with edge removal disabled the NaN positions are exactly the
input ones. -/
theorem fir_nan_positions
    {freqResp : List ℚ → List ℚ → List ℚ × List ℚ}
    {firwin : ℕ → List ℚ → Bool → ℚ → List ℚ}
    {sig : Sig} {fs : ℚ} {pt : String} {fc : Fc} {nc : ℚ} {ns : Option ℚ}
    {plot ctb edge : Bool} {out : Sig} {kernel : List ℚ}
    (h : filterSignalFir freqResp firwin sig fs pt fc nc ns plot true ctb edge
          = .ok (out, some kernel))
    (i : ℕ) (hi : i < sig.length) :
    out[i]? = some none ↔
      sig[i]? = some none ∨
        (edge = true ∧ (nnRank sig i < (kernel.length + 1) / 2 ∨
          (sig.filterMap id).length ≤ nnRank sig i + (kernel.length + 1) / 2)) := by
  unfold filterSignalFir at h
  split at h
  · exact absurd h (by simp)
  rename_i kernel0 hdes
  split at h
  · exact absurd h (by simp)
  rename_i ws hck
  split at h
  · exact absurd h (by simp)
  rename_i conv hconv
  split at h
  · exact absurd h (by simp)
  rename_i restored hres
  rw [if_pos rfl] at h
  simp only [Except.ok.injEq, Prod.mk.injEq, Option.some.injEq] at h
  obtain ⟨hout, hker⟩ := h
  subst hout
  subst hker
  obtain ⟨hlen, hcnt, hpt2⟩ := restoreNans_spec (removeNans sig).2 _ _ hres
  have hmask : (removeNans sig).2 = sig.map Option.isNone := rfl
  have hmlen : (removeNans sig).2.length = sig.length := by simp [removeNans]
  have hx := hpt2 i (by rwa [hmlen])
  have hK : ((removeNans sig).2.filter fun b => !b).length = (sig.filterMap id).length := by
    rw [hmask]
    exact filter_not_isNone_length sig
  by_cases hnan : sig[i]? = some none
  · have hgd : (removeNans sig).2.getD i true = true := by
      rw [hmask]
      exact (mask_getD_true_iff sig i hi).mpr hnan
    rw [hgd] at hx
    simp only [if_true] at hx
    simp [hx, hnan]
  · have hgd : (removeNans sig).2.getD i true = false := by
      rw [hmask]
      cases hb : (sig.map Option.isNone).getD i true
      · rfl
      · exact absurd ((mask_getD_true_iff sig i hi).mp hb) hnan
    rw [hgd] at hx
    simp only [Bool.false_eq_true, if_false] at hx
    have hr : falseBefore (removeNans sig).2 i = nnRank sig i := by
      rw [hmask]
      exact falseBefore_map_isNone sig i
    rw [hr] at hx
    have hrlt : nnRank sig i < (sig.filterMap id).length := by
      have hlt := falseBefore_lt (removeNans sig).2 i (by rwa [hmlen]) hgd
      rwa [hr, hK] at hlt
    cases edge with
    | false =>
      simp only [Bool.false_eq_true, if_false] at hx hcnt
      have hcl : conv.length = (sig.filterMap id).length := by
        rw [← hK, ← hcnt]
        simp
      have hlt : nnRank sig i < conv.length := by rw [hcl]; exact hrlt
      have hmv : (conv.map some)[nnRank sig i]? = some (some conv[nnRank sig i]) := by
        rw [List.getElem?_map, List.getElem?_eq_getElem hlt]
        rfl
      rw [hmv] at hx
      rw [hx]
      simp [hnan]
    | true =>
      simp only [if_true] at hx hcnt
      have hcl : conv.length = (sig.filterMap id).length := by
        rw [← hK, ← hcnt, dropEdgeArtifacts_length]
      have hlt : nnRank sig i < conv.length := by rw [hcl]; exact hrlt
      rw [dropEdgeArtifacts_getElem _ _ _ hlt, hcl] at hx
      rw [hx]
      by_cases hc : nnRank sig i < (kernel0.length + 1) / 2 ∨
          (sig.filterMap id).length ≤ nnRank sig i + (kernel0.length + 1) / 2
      · simp [hc, hnan]
      · simp [hc, hnan]

/-- C1 witness: the amended NaN-position characterization instantiated at
position 3 of the counterexample run. -/
theorem fir_nan_positions_witness :
    ([none, none, none, none, some 20, some 25, some 30, none, none, none] : Sig)[3]?
        = some none ↔
      ([none, some 1, some 2, some 3, some 4, some 5, some 6, some 7, some 8, some 9] : Sig)[3]?
          = some none ∨
        (true = true ∧
          (nnRank [none, some 1, some 2, some 3, some 4, some 5, some 6, some 7, some 8, some 9] 3
              < (([1, 1, 1, 1, 1] : List ℚ).length + 1) / 2 ∨
            (([none, some 1, some 2, some 3, some 4, some 5, some 6, some 7, some 8, some 9] : Sig).filterMap
                id).length
              ≤ nnRank [none, some 1, some 2, some 3, some 4, some 5, some 6, some 7, some 8, some 9] 3
                + (([1, 1, 1, 1, 1] : List ℚ).length + 1) / 2)) :=
  fir_nan_positions
    (show filterSignalFir (fun _ _ => ([], [])) (fun n _ _ _ => List.replicate n 1)
        [none, some 1, some 2, some 3, some 4, some 5, some 6, some 7, some 8, some 9]
        1000 "lowpass" (.single 600) 3 none false true false true
      = .ok ([none, none, none, none, some 20, some 25, some 30, none, none, none],
             some [1, 1, 1, 1, 1]) from by with_unfolding_all rfl) 3 (by decide)
